import Mathlib

/-!
Verification of the Neptun N4106 leak-protection protocol client.

Shallow embedding of `custom_components/neptun_leak_protection/protocol.py`,
`sensor_mapping.py` and the battery conversion in `sensor.py`.  Bytes are
modeled as natural numbers (values below 256 where relevant); transports are
modeled as oracles `Nat → Option (List Nat)` giving, for each attempt index,
the raw response bytes (`none` = exception or timeout, `some []` = empty
read); wall-clock instants are rational numbers of seconds.  The
non-reentrant `asyncio.Lock` is modeled explicitly: an operation that awaits
an acquisition of the lock while the same task already holds it never
resumes, which the embedding renders as the result `none`.
-/

set_option maxRecDepth 100000

namespace Neptun

/-- One shift/xor round of the CRC16 inner loop (protocol.py lines 44-49):
shift left, xor with the polynomial 0x1021 when the top bit was set, and
mask to 16 bits. -/
def crc16Round (c : Nat) : Nat :=
  if c &&& 0x8000 ≠ 0 then ((c <<< 1) ^^^ 0x1021) &&& 0xFFFF
  else (c <<< 1) &&& 0xFFFF

/-- Feeding one input byte into the CRC16 accumulator (protocol.py lines
41-49): xor the byte shifted into the high half, mask, then run eight
rounds. -/
def crc16Feed (c b : Nat) : Nat :=
  crc16Round^[8] ((c ^^^ (b <<< 8)) &&& 0xFFFF)

/-- `crc16` from protocol.py lines 36-53: CCITT-style CRC with polynomial
0x1021 and initial value 0xFFFF, returning the `(hi, lo)` byte pair. -/
def crc16 (data : List Nat) : Nat × Nat :=
  let r := data.foldl crc16Feed 0xFFFF
  ((r >>> 8) &&& 0xFF, r &&& 0xFF)

/-- Big-endian two-byte encoding used for the length field
(`length.to_bytes(2, 'big')`); exact for lengths below 65536. -/
def lenBytesBE (n : Nat) : List Nat :=
  [n / 256, n % 256]

/-- `create_command` from protocol.py lines 56-73: header `02 54 51`, the
command code, the payload length as two big-endian bytes, the payload, and
the two CRC bytes over everything preceding them. -/
def create_command (command_code : Nat) (data_payload : List Nat) : List Nat :=
  let command_bytes := [0x02, 0x54, 0x51, command_code]
  let command_bytes := command_bytes ++ lenBytesBE data_payload.length
  let command_bytes := command_bytes ++ data_payload
  let c := crc16 command_bytes
  command_bytes ++ [c.1, c.2]

/-- `create_control_command` from protocol.py lines 76-94: a 0x57 frame with
payload `53 00 04 [valve] [dry] [cl_valve] [line_config]`. -/
def create_control_command (valve_state_open flag_dry flag_cl_valve : Bool)
    (line_in_config : Nat) : List Nat :=
  let data_payload :=
    [0x53, 0x00, 0x04,
     if valve_state_open then 1 else 0,
     if flag_dry then 1 else 0,
     if flag_cl_valve then 1 else 0,
     line_in_config]
  create_command 0x57 data_payload

/-- Little-endian four-byte encoding used for the counter value
(`counter_value.to_bytes(4, 'little')`); exact for values below 2^32. -/
def leBytes4 (v : Nat) : List Nat :=
  [v % 256, v / 256 % 256, v / 65536 % 256, v / 16777216 % 256]

/-- `create_counter_command` from protocol.py lines 97-103: a 0x58 frame with
payload `53 00 04 [line] 00 00 00` followed by the 32-bit little-endian
counter value. -/
def create_counter_command (line_number counter_value : Nat) : List Nat :=
  create_command 0x58 ([0x53, 0x00, 0x04, line_number, 0x00, 0x00, 0x00]
    ++ leBytes4 counter_value)

/-- The hardcoded "open valves" frame of the effective `set_valve_state`
(protocol.py line 497): hex `0254515700075300040100000089A5`. -/
def valve_open_frame : List Nat :=
  [0x02, 0x54, 0x51, 0x57, 0x00, 0x07, 0x53, 0x00, 0x04, 0x01, 0x00, 0x00,
   0x00, 0x89, 0xA5]

/-- The hardcoded "close valves" / "all flags off" frame shared by the
effective setters (protocol.py lines 500, 523, 546): hex
`0254515700075300040000000032B9`. -/
def valve_close_frame : List Nat :=
  [0x02, 0x54, 0x51, 0x57, 0x00, 0x07, 0x53, 0x00, 0x04, 0x00, 0x00, 0x00,
   0x00, 0x32, 0xB9]

/-- The hardcoded "enable dry mode" frame (protocol.py line 520): hex
`02545157000753000400010000EEE3`. -/
def dry_on_frame : List Nat :=
  [0x02, 0x54, 0x51, 0x57, 0x00, 0x07, 0x53, 0x00, 0x04, 0x00, 0x01, 0x00,
   0x00, 0xEE, 0xE3]

/-- The hardcoded "enable auto-close" frame (protocol.py line 543): hex
`02545157000753000400000100EAA0`. -/
def auto_on_frame : List Nat :=
  [0x02, 0x54, 0x51, 0x57, 0x00, 0x07, 0x53, 0x00, 0x04, 0x00, 0x00, 0x01,
   0x00, 0xEA, 0xA0]

/-- A transport oracle: for each 0-based attempt index, the outcome of one
`_send_command` call.  `none` models an exception or timeout, `some []` an
empty read; both are falsy in the Python retry loop. -/
def Oracle : Type := Nat → Option (List Nat)

/-- A failed attempt in the retry loop: an exception / no bytes (`none`) or
an empty read (`some []`) — both falsy for `if response:` in the source. -/
def attempt_failed (r : Option (List Nat)) : Prop :=
  r = none ∨ r = some []

/-- The retry loop body of `send_command_with_retries` (protocol.py lines
132-151), with fuel `remaining` standing for the attempts still allowed by
`range(max_retries)`.  The third result component counts the
`asyncio.sleep(retry_delay)` calls performed; the Python code sleeps after a
failed attempt exactly when `attempt < max_retries - 1`. -/
def retryGo (responses : Oracle) (maxRetries : Nat) :
    Nat → Nat → Nat → Option (List Nat) × Nat × Nat
  | 0, _, sleeps => (none, maxRetries, sleeps)
  | remaining + 1, attempt, sleeps =>
      let sleeps' := if attempt < maxRetries - 1 then sleeps + 1 else sleeps
      match responses attempt with
      | some r =>
          if r.isEmpty then retryGo responses maxRetries remaining (attempt + 1) sleeps'
          else (some r, attempt + 1, sleeps)
      | none => retryGo responses maxRetries remaining (attempt + 1) sleeps'

/-- `send_command_with_retries` from protocol.py lines 124-151, as a pure
function of the transport oracle: returns the first non-empty response
together with the 1-based attempt index, or `(none, max_retries)` when every
attempt failed; the third component is the number of retry-delay sleeps. -/
def send_command_with_retries (responses : Oracle) (maxRetries : Nat) :
    Option (List Nat) × Nat × Nat :=
  retryGo responses maxRetries maxRetries 0 0

/-- The fields written into `self.system_state` by `_parse_system_state`
(protocol.py lines 200-244).  The duplicated dict keys in the source
(`sensor_i_battery` written twice with the same value, and `sensor_i_signal`
alongside `sensor_i_flag`, both read from the same offset) collapse to one
field each plus the signal/flag pair kept separate as in the source. -/
structure SystemState where
  valve_open : Bool
  dry_mode : Bool
  auto_close : Bool
  sensor_1_state : Nat
  sensor_2_state : Nat
  sensor_3_state : Nat
  sensor_1_battery : Nat
  sensor_2_battery : Nat
  sensor_3_battery : Nat
  sensor_1_signal : Nat
  sensor_2_signal : Nat
  sensor_3_signal : Nat
  sensor_1_index : Nat
  sensor_2_index : Nat
  sensor_3_index : Nat
  sensor_1_flag : Nat
  sensor_2_flag : Nat
  sensor_3_flag : Nat
  counter_1_data : Nat
  counter_2_data : Nat
  counter_3_data : Nat
deriving DecidableEq, Repr

/-- One entry of the `self.sensors` dict built by `_parse_sensor_data`
(protocol.py lines 276-283). -/
structure SensorInfo where
  state : String
  battery_level : Nat
  battery_percent : Nat
  flag : Nat
  index : Nat
  wireless : Bool
deriving DecidableEq, Repr

/-- One entry of the `self.counters` dict built by `_parse_counter_data`
(protocol.py lines 291-295). -/
structure CounterInfo where
  data : Nat
  line_number : Nat
  wire : Bool
deriving DecidableEq, Repr

/-- The mutable cache of a `NeptunDevice`: the `system_state`, `sensors` and
`counters` dicts (each `none` while still empty, `some` once populated — the
source only ever populates all keys of a dict together) and the
`last_update` timestamp in seconds. -/
structure DeviceState where
  system_state : Option SystemState
  sensors : Option (SensorInfo × SensorInfo × SensorInfo)
  counters : Option (CounterInfo × CounterInfo × CounterInfo)
  last_update : Option ℚ
deriving DecidableEq, Repr

/-- A freshly constructed device: all caches empty, no timestamp
(protocol.py lines 109-118). -/
def emptyDevice : DeviceState :=
  { system_state := none, sensors := none, counters := none, last_update := none }

/-- The pure decode of a ≥112-byte system-state response into the fields
written by `_parse_system_state` (protocol.py lines 200-244); every field
comes from one fixed byte offset. -/
def decodeSystemState (data : List Nat) : SystemState where
  valve_open := data.getD 41 0 == 0x01
  dry_mode := data.getD 46 0 == 0x0F
  auto_close := data.getD 47 0 == 0x08
  sensor_1_state := data.getD 51 0
  sensor_2_state := data.getD 55 0
  sensor_3_state := data.getD 59 0
  sensor_1_battery := data.getD 53 0
  sensor_2_battery := data.getD 57 0
  sensor_3_battery := data.getD 61 0
  sensor_1_signal := data.getD 54 0
  sensor_2_signal := data.getD 58 0
  sensor_3_signal := data.getD 62 0
  sensor_1_index := data.getD 52 0
  sensor_2_index := data.getD 56 0
  sensor_3_index := data.getD 60 0
  sensor_1_flag := data.getD 54 0
  sensor_2_flag := data.getD 58 0
  sensor_3_flag := data.getD 62 0
  counter_1_data := data.getD 66 0
  counter_2_data := data.getD 67 0
  counter_3_data := data.getD 68 0

/-- The body of the `_parse_sensor_data` loop for one sensor (protocol.py
lines 256-283), reading the freshly written state, battery and flag values. -/
def parseSensorOne (state battery flag i : Nat) : SensorInfo :=
  let sb : String × Nat :=
    if state == 0x00 then ("disconnected", 0)
    else if state == 0x02 then ("triggered", 2)
    else if state == 0x03 then ("normal", 3)
    else ("unknown", 0)
  { state := sb.1, battery_level := sb.2, battery_percent := battery,
    flag := flag, index := i, wireless := true }

/-- `_parse_sensor_data` (protocol.py lines 254-283): rebuilds the three
`sensors` entries from the just-updated system-state fields. -/
def parseSensors (s : SystemState) : SensorInfo × SensorInfo × SensorInfo :=
  (parseSensorOne s.sensor_1_state s.sensor_1_battery s.sensor_1_flag 1,
   parseSensorOne s.sensor_2_state s.sensor_2_battery s.sensor_2_flag 2,
   parseSensorOne s.sensor_3_state s.sensor_3_battery s.sensor_3_flag 3)

/-- `_parse_counter_data` (protocol.py lines 285-295): rebuilds the three
`counters` entries from the just-updated counter data bytes. -/
def parseCounters (s : SystemState) : CounterInfo × CounterInfo × CounterInfo :=
  ({ data := s.counter_1_data, line_number := 1, wire := true },
   { data := s.counter_2_data, line_number := 2, wire := true },
   { data := s.counter_3_data, line_number := 3, wire := true })

/-- `_parse_system_state` (protocol.py lines 193-252): a response shorter
than 112 bytes is rejected and leaves the whole device cache untouched;
otherwise the cache dicts are rewritten from the fixed offsets and
`last_update` is set to the current instant. -/
def parseSystemState (data : List Nat) (d : DeviceState) (now : ℚ) : DeviceState :=
  if data.length < 112 then d
  else
    let st := decodeSystemState data
    { system_state := some st
      sensors := some (parseSensors st)
      counters := some (parseCounters st)
      last_update := some now }

/-- The byte offsets of the documented fixed layout, exactly those read by
`_parse_system_state`: 41 (valve), 46 (dry mode), 47 (auto-close),
51..62 (state/index/battery/signal of the three wireless sensors) and
66..68 (counter line data). -/
def stateOffsets : List Nat :=
  [41, 46, 47, 51, 52, 53, 54, 55, 56, 57, 58, 59, 60, 61, 62, 66, 67, 68]

/-- Positive characterisation of the response classification chain of
`get_system_state` (protocol.py lines 327-336): a response is classified as
Success when its hex string starts with `025441` but with neither `025441fb`
(unknown command) nor `025441fe` (CRC/format error); hex prefixes of whole
bytes coincide with byte-list prefixes. -/
def classifySuccess (response : List Nat) : Bool :=
  [0x02, 0x54, 0x41].isPrefixOf response
    && !([0x02, 0x54, 0x41, 0xFB].isPrefixOf response)
    && !([0x02, 0x54, 0x41, 0xFE].isPrefixOf response)

/-- `get_system_state` (protocol.py lines 316-339), the refresh operation,
as a pure function of the transport oracle (the frame sent on every attempt
is `create_command 0x52 []`): returns the Python result together with the
device cache after the call. -/
def get_system_state (responses : Oracle) (maxRetries : Nat) (d : DeviceState)
    (now : ℚ) : Bool × DeviceState :=
  match (send_command_with_retries responses maxRetries).1 with
  | none => (false, d)
  | some response =>
      if [0x02, 0x54, 0x41, 0xFB].isPrefixOf response then (false, d)
      else if [0x02, 0x54, 0x41, 0xFE].isPrefixOf response then (false, d)
      else if [0x02, 0x54, 0x41].isPrefixOf response then
        (true, parseSystemState response d now)
      else (false, d)

/-- `is_online` (protocol.py lines 471-478): false while no update ever
succeeded, otherwise true exactly when the last update is strictly less
than 600 seconds old. -/
def is_online (d : DeviceState) (now : ℚ) : Bool :=
  match d.last_update with
  | none => false
  | some t => decide (now - t < 600)

/-- The effective `set_valve_state` (protocol.py lines 491-512, the second
definition of the method, which in Python shadows the read-modify-write
definition at lines 341-376): transmits one of two hardcoded literal frames
with default retry settings and returns true exactly when some attempt
yields a non-empty response.  The second component is the list of frames
transmitted, one per attempt made. -/
def set_valve_state (responses : Oracle) (open_valve : Bool) :
    Bool × List (List Nat) :=
  let command := if open_valve then valve_open_frame else valve_close_frame
  let r := send_command_with_retries responses 5
  ((match r.1 with | some b => !b.isEmpty | none => false),
   List.replicate r.2.1 command)

/-- The effective `set_dry_mode` (protocol.py lines 514-535, shadowing the
read-modify-write definition at lines 378-397): hardcoded literal frames,
no prior refresh, no cache update. -/
def set_dry_mode (responses : Oracle) (dry_mode : Bool) :
    Bool × List (List Nat) :=
  let command := if dry_mode then dry_on_frame else valve_close_frame
  let r := send_command_with_retries responses 5
  ((match r.1 with | some b => !b.isEmpty | none => false),
   List.replicate r.2.1 command)

/-- The effective `set_auto_close` (protocol.py lines 537-558, shadowing the
read-modify-write definition at lines 399-418): hardcoded literal frames,
no prior refresh, no cache update. -/
def set_auto_close (responses : Oracle) (auto_close : Bool) :
    Bool × List (List Nat) :=
  let command := if auto_close then auto_on_frame else valve_close_frame
  let r := send_command_with_retries responses 5
  ((match r.1 with | some b => !b.isEmpty | none => false),
   List.replicate r.2.1 command)

/-- Reading `self.system_state.get("valve_open", default)` and its two
sibling flags (protocol.py lines 426-428): the dict is either still empty
(`none`) or fully populated. -/
def cacheValveOpen (d : DeviceState) (dflt : Bool) : Bool :=
  match d.system_state with
  | none => dflt
  | some s => s.valve_open

/-- see `cacheValveOpen`. -/
def cacheDryMode (d : DeviceState) (dflt : Bool) : Bool :=
  match d.system_state with
  | none => dflt
  | some s => s.dry_mode

/-- see `cacheValveOpen`. -/
def cacheAutoClose (d : DeviceState) (dflt : Bool) : Bool :=
  match d.system_state with
  | none => dflt
  | some s => s.auto_close

/-- `get_system_state` including its acquisition of the device lock
(protocol.py line 318).  `self._lock` is a non-reentrant `asyncio.Lock`; if
the invoking task already holds it, the `await` never resumes, modeled as
result `none`.  The second component lists the frames transmitted before
the operation completed or blocked. -/
def get_system_state_lk (lockHeld : Bool) (responses : Oracle)
    (maxRetries : Nat) (d : DeviceState) (now : ℚ) :
    Option (Bool × DeviceState) × List (List Nat) :=
  if lockHeld then (none, [])
  else
    let r := get_system_state responses maxRetries d now
    (some r,
     List.replicate (send_command_with_retries responses maxRetries).2.1
       (create_command 0x52 []))

/-- `set_line_mode` (protocol.py lines 420-442) with the lock modeled: it
acquires `self._lock`, then awaits `self.get_system_state()`, which tries
to acquire the same non-reentrant lock again — so once past its own
acquisition the call can never resume.  `responsesA` serves the inner
refresh, `responsesB` the control-frame send. -/
def set_line_mode_lk (lockHeld : Bool) (responsesA responsesB : Oracle)
    (line_number : Nat) (counter_mode : Bool) (d : DeviceState) (now : ℚ) :
    Option (Bool × DeviceState) × List (List Nat) :=
  if lockHeld then (none, [])
  else
    match get_system_state_lk true responsesA 5 d now with
    | (none, t) => (none, t)
    | (some (_, d1), t) =>
        let valve_open := cacheValveOpen d1 true
        let dry_mode := cacheDryMode d1 false
        let auto_close := cacheAutoClose d1 false
        let line_config := if counter_mode then 1 <<< (line_number - 1) else 0
        let command := create_control_command valve_open dry_mode auto_close line_config
        let r := send_command_with_retries responsesB 5
        let t' := t ++ List.replicate r.2.1 command
        match r.1 with
        | none => (some (false, d1), t')
        | some _ => (some (true, d1), t')

/-- `set_counter_value` (protocol.py lines 444-458) with the lock modeled:
it acquires `self._lock` and then awaits `self.set_line_mode(line, True)`,
which blocks forever on its own acquisition of the same non-reentrant lock.
`responsesA`/`responsesB` serve the nested call, `responsesC` the
counter-frame send. -/
def set_counter_value_lk (lockHeld : Bool)
    (responsesA responsesB responsesC : Oracle) (line_number value : Nat)
    (d : DeviceState) (now : ℚ) :
    Option (Bool × DeviceState) × List (List Nat) :=
  if lockHeld then (none, [])
  else
    match set_line_mode_lk true responsesA responsesB line_number true d now with
    | (none, t) => (none, t)
    | (some (_, d1), t) =>
        let command := create_counter_command line_number value
        let r := send_command_with_retries responsesC 5
        let t' := t ++ List.replicate r.2.1 command
        match r.1 with
        | none => (some (false, d1), t')
        | some _ => (some (true, d1), t')

/-- The signed two's-complement reading of one byte, the semantics of
`struct.unpack('b', bytes([battery_byte]))[0]` for byte values below 256. -/
def signed8 (b : Nat) : Int :=
  if b < 128 then (b : Int) else (b : Int) - 256

/-- `parse_battery_level` from sensor_mapping.py lines 63-84: the byte is
read as a signed 8-bit integer and negative readings are negated. -/
def parse_battery_level (battery_byte : Nat) : Int :=
  let battery_signed := signed8 battery_byte
  if battery_signed < 0 then -battery_signed else battery_signed

/-- The battery conversion inlined in the wireless battery entity
(`NeptunWirelessBatterySensor.native_value`, sensor.py lines 219-237):
textually the same signed-8-bit absolute-value conversion as
`parse_battery_level`. -/
def wireless_battery_native_value (battery : Nat) : Int :=
  let battery_signed := signed8 battery
  if battery_signed < 0 then -battery_signed else battery_signed

/-- A transport where every attempt fails with an exception or timeout. -/
def alwaysFailOracle : Oracle := fun _ => none

/-- A transport that fails twice and then answers with one byte. -/
def thirdTimeOracle : Oracle := fun n => if n < 2 then none else some [0x02]

/-- A Success-classified but 4-byte (hence undecodable) state response. -/
def shortOkOracle : Oracle := fun _ => some [0x02, 0x54, 0x41, 0x52]

/-- A well-formed 112-byte state response (Success header, zero state). -/
def sampleStateResponse : List Nat :=
  [0x02, 0x54, 0x41, 0x52] ++ List.replicate 108 0

/-- A transport that always answers with `sampleStateResponse`. -/
def fullOkOracle : Oracle := fun _ => some sampleStateResponse

/-- A device whose only successful refresh happened at instant 0. -/
def lastZeroDevice : DeviceState :=
  { system_state := none, sensors := none, counters := none,
    last_update := some 0 }

/-- C5: the claim is false on the code.  `crc16` applied to the 13 frame
bytes `02 54 51 57 00 07 53 00 04 01 00 00 00` does not return the byte
pair `(0x89, 0xA5)` that terminates the hardcoded "valve open" command. -/
theorem crc16_valve_frame_not_89A5 :
    crc16 [0x02, 0x54, 0x51, 0x57, 0x00, 0x07, 0x53, 0x00, 0x04, 0x01, 0x00,
      0x00, 0x00] ≠ (0x89, 0xA5) := by
  decide

/-- C5 (amended): `crc16` over those 13 bytes returns `(0x7C, 0x66)`, so the
frame the generic builder produces for "valve open, all other flags off"
ends in `7C 66` and differs from the literal transmitted frame
`...89A5`. -/
theorem crc16_valve_frame_value :
    crc16 [0x02, 0x54, 0x51, 0x57, 0x00, 0x07, 0x53, 0x00, 0x04, 0x01, 0x00,
      0x00, 0x00] = (0x7C, 0x66)
    ∧ create_control_command true false false 0 =
        [0x02, 0x54, 0x51, 0x57, 0x00, 0x07, 0x53, 0x00, 0x04, 0x01, 0x00,
         0x00, 0x00, 0x7C, 0x66]
    ∧ create_control_command true false false 0 ≠ valve_open_frame := by
  refine ⟨by decide, by decide, by decide⟩

/-- C7: for every byte, both `parse_battery_level` (sensor_mapping.py) and
the wireless battery entity conversion (sensor.py) report the absolute
value of the signed two's-complement reading of the byte; raw `0x64` gives
100 and raw `0xD6` gives 42. -/
theorem battery_percent_abs_signed8 :
    (∀ b : Nat, b < 256 →
      parse_battery_level b = ((signed8 b).natAbs : Int)
      ∧ wireless_battery_native_value b = ((signed8 b).natAbs : Int))
    ∧ parse_battery_level 0x64 = 100 ∧ parse_battery_level 0xD6 = 42
    ∧ wireless_battery_native_value 0x64 = 100
    ∧ wireless_battery_native_value 0xD6 = 42 := by
  have key : ∀ s : Int, (if s < 0 then -s else s) = (s.natAbs : Int) := by
    intro s
    split <;> omega
  exact ⟨fun b _ => ⟨key (signed8 b), key (signed8 b)⟩,
    by decide, by decide, by decide, by decide⟩

/-- C7 witness at the concrete byte `0xD6`. -/
theorem battery_percent_abs_signed8_witness :
    parse_battery_level 0xD6 = ((signed8 0xD6).natAbs : Int) :=
  (battery_percent_abs_signed8.1 0xD6 (by decide)).1

/-- C10: `is_online` is true exactly when a `last_update` exists and is
strictly less than 600 seconds (10 minutes) old; at the exact boundary
instant and when no update ever succeeded it is false. -/
theorem is_online_iff :
    ∀ (d : DeviceState) (now : ℚ),
      (is_online d now = true ↔ ∃ t, d.last_update = some t ∧ now - t < 600)
      ∧ (∀ t, d.last_update = some t → is_online d (t + 600) = false)
      ∧ (d.last_update = none → is_online d now = false) := by
  intro d now
  refine ⟨?_, ?_, ?_⟩
  · cases h : d.last_update with
    | none => simp [is_online, h]
    | some t => simp [is_online, h]
  · intro t ht
    simp only [is_online, ht]
    norm_num
  · intro h
    simp [is_online, h]

/-- C10 witness: a device last refreshed at instant 0 is offline at the
boundary instant 600. -/
theorem is_online_iff_witness :
    is_online lastZeroDevice (0 + 600) = false :=
  (is_online_iff lastZeroDevice (0 + 600)).2.1 0 rfl

/-- C1: the claim is false on the code.  The effective `set_valve_state`,
`set_dry_mode` and `set_auto_close` (the later duplicate method definitions,
which shadow the read-modify-write ones) transmit fixed literal frames on
every attempt: whatever a refresh would have fetched, the two non-target
flag bytes of the transmitted frame are 0 (and `dry_on_frame` even carries
valve byte 0), whereas a frame preserving a fetched enabled flag — as built
by the repository's own `create_control_command` — carries 1 there. -/
theorem setters_transmit_constant_frames :
    (∀ (responses : Oracle) (v : Bool),
      ((set_valve_state responses v).2.all
        (fun f => f == if v then valve_open_frame else valve_close_frame)) = true)
    ∧ (∀ (responses : Oracle) (dm : Bool),
      ((set_dry_mode responses dm).2.all
        (fun f => f == if dm then dry_on_frame else valve_close_frame)) = true)
    ∧ (∀ (responses : Oracle) (ac : Bool),
      ((set_auto_close responses ac).2.all
        (fun f => f == if ac then auto_on_frame else valve_close_frame)) = true)
    ∧ valve_open_frame.getD 10 0 = 0 ∧ valve_open_frame.getD 11 0 = 0
    ∧ dry_on_frame.getD 9 0 = 0 ∧ dry_on_frame.getD 11 0 = 0
    ∧ auto_on_frame.getD 9 0 = 0 ∧ auto_on_frame.getD 10 0 = 0
    ∧ (create_control_command true true false 0).getD 10 0 = 1
    ∧ (create_control_command false true true 0).getD 11 0 = 1
    ∧ (create_control_command true true false 0).getD 9 0 = 1 := by
  refine ⟨?_, ?_, ?_, by decide, by decide, by decide, by decide, by decide,
    by decide, by decide, by decide, by decide⟩ <;>
  · intro responses v
    rw [List.all_eq_true]
    intro f hf
    rw [List.eq_of_mem_replicate hf]
    exact beq_self_eq_true _

/-- C4: the claim is false on the code.  The effective `set_valve_state`
returns true exactly when some retry attempt yields a non-empty response;
it performs no settle delay, no second refresh and no comparison of the
re-read valve flag — every frame it ever transmits is a `0x57` control
frame (byte 3 of the frame), never the `0x52` state query, and with a
transport whose answers carry no state at all it still reports success. -/
theorem set_valve_state_unconfirmed :
    (∀ (responses : Oracle) (v : Bool),
      ((set_valve_state responses v).1 = true ↔
        ∃ b, (send_command_with_retries responses 5).1 = some b ∧ b ≠ []))
    ∧ (∀ (responses : Oracle) (v : Bool),
      ∀ f ∈ (set_valve_state responses v).2, f.getD 3 0 = 0x57)
    ∧ (set_valve_state (fun _ => some [0x02, 0x54, 0x41]) true).1 = true := by
  refine ⟨?_, ?_, by decide⟩
  · intro responses v
    unfold set_valve_state
    cases h : (send_command_with_retries responses 5).1 with
    | none => simp [h]
    | some b => simp [h, List.isEmpty_iff]
  · intro responses v f hf
    unfold set_valve_state at hf
    rw [List.eq_of_mem_replicate hf]
    cases v <;> decide

/-- C4 witness: the frame transmitted in the concrete success scenario is
the `0x57` control frame. -/
theorem set_valve_state_unconfirmed_witness :
    valve_open_frame.getD 3 0 = 0x57 :=
  set_valve_state_unconfirmed.2.1 (fun _ => some [0x02, 0x54, 0x41]) true
    valve_open_frame (by decide)

/-- C2: the claim is false on the code.  `set_counter_value` acquires the
device's non-reentrant `asyncio.Lock` and then awaits `set_line_mode`,
which blocks forever re-acquiring that same lock (as would the refresh
inside `set_line_mode`): the call never completes and transmits no frame
at all.  The second conjunct records that the counter frame the second
round trip was meant to send does have the claimed shape — a `0x58` frame
with payload `53 00 04 [line] 00 00 00` followed by the value in 32-bit
little-endian order. -/
theorem set_counter_value_deadlocks :
    (∀ (lockHeld : Bool) (rA rB rC : Oracle) (line value : Nat)
        (d : DeviceState) (now : ℚ),
      set_counter_value_lk lockHeld rA rB rC line value d now = (none, []))
    ∧ (∀ line value : Nat, value < 4294967296 →
      create_counter_command line value =
        [0x02, 0x54, 0x51, 0x58, 0x00, 0x0B, 0x53, 0x00, 0x04, line, 0x00,
          0x00, 0x00] ++ leBytes4 value ++
          [(crc16 ([0x02, 0x54, 0x51, 0x58, 0x00, 0x0B, 0x53, 0x00, 0x04,
            line, 0x00, 0x00, 0x00] ++ leBytes4 value)).1,
           (crc16 ([0x02, 0x54, 0x51, 0x58, 0x00, 0x0B, 0x53, 0x00, 0x04,
            line, 0x00, 0x00, 0x00] ++ leBytes4 value)).2]
      ∧ value % 256 + 256 * (value / 256 % 256) + 65536 * (value / 65536 % 256)
          + 16777216 * (value / 16777216 % 256) = value) := by
  constructor
  · intro lockHeld rA rB rC line value d now
    cases lockHeld <;>
      simp [set_counter_value_lk, set_line_mode_lk, get_system_state_lk]
  · intro line value hv
    refine ⟨?_, by omega⟩
    simp [create_counter_command, create_command, lenBytesBE, leBytes4,
      List.length_append, List.append_assoc]

/-- C2 witness at line 1, value `0x12345678`, on an idle (unlocked) device. -/
theorem set_counter_value_deadlocks_witness :
    set_counter_value_lk false alwaysFailOracle alwaysFailOracle
      alwaysFailOracle 1 305419896 emptyDevice 0 = (none, [])
    ∧ 305419896 % 256 + 256 * (305419896 / 256 % 256)
        + 65536 * (305419896 / 65536 % 256)
        + 16777216 * (305419896 / 16777216 % 256) = 305419896 :=
  ⟨set_counter_value_deadlocks.1 false alwaysFailOracle alwaysFailOracle
      alwaysFailOracle 1 305419896 emptyDevice 0,
   (set_counter_value_deadlocks.2 1 305419896 (by decide)).2⟩

/-- C3: counterexample.  With a transport answering the Success-classified
but 4-byte response `02 54 41 52`, `get_system_state` (refresh) returns
true even though the response is shorter than 112 bytes, no decode
happened, the cache is still empty and the timestamp was never set — the
claim requires false on a decode failure. -/
theorem refresh_true_on_short_success_response :
    get_system_state shortOkOracle 5 emptyDevice 0 = (true, emptyDevice)
    ∧ emptyDevice.last_update = none ∧ emptyDevice.system_state = none := by
  refine ⟨by decide, rfl, rfl⟩

/-- C3 (amended): refresh returns true exactly when a response arrives that
is classified as Success; on a Success response of at least 112 bytes the
cache and `last_update` are replaced with the fresh decode, on a shorter
Success response it still returns true while leaving cache and timestamp
untouched, and on no-response or any non-Success classification it returns
false with the cache untouched. -/
theorem get_system_state_spec :
    ∀ (responses : Oracle) (maxRetries : Nat) (d : DeviceState) (now : ℚ),
      ((send_command_with_retries responses maxRetries).1 = none →
        get_system_state responses maxRetries d now = (false, d))
      ∧ (∀ b, (send_command_with_retries responses maxRetries).1 = some b →
          classifySuccess b = false →
          get_system_state responses maxRetries d now = (false, d))
      ∧ (∀ b, (send_command_with_retries responses maxRetries).1 = some b →
          classifySuccess b = true → b.length < 112 →
          get_system_state responses maxRetries d now = (true, d))
      ∧ (∀ b, (send_command_with_retries responses maxRetries).1 = some b →
          classifySuccess b = true → 112 ≤ b.length →
          get_system_state responses maxRetries d now =
            (true, parseSystemState b d now)
          ∧ (parseSystemState b d now).last_update = some now
          ∧ (parseSystemState b d now).system_state =
              some (decodeSystemState b)) := by
  intro responses maxRetries d now
  refine ⟨?_, ?_, ?_, ?_⟩
  · intro h
    simp [get_system_state, h]
  · intro b hb hc
    cases hFB : [0x02, 0x54, 0x41, 0xFB].isPrefixOf b <;>
      cases hFE : [0x02, 0x54, 0x41, 0xFE].isPrefixOf b <;>
        cases hPre : [0x02, 0x54, 0x41].isPrefixOf b <;>
          simp_all [get_system_state, classifySuccess]
  · intro b hb hc hlen
    simp only [classifySuccess, Bool.and_eq_true, Bool.not_eq_true'] at hc
    simp [get_system_state, hb, hc.1.1, hc.1.2, hc.2, parseSystemState, hlen]
  · intro b hb hc hlen
    simp only [classifySuccess, Bool.and_eq_true, Bool.not_eq_true'] at hc
    have hp : parseSystemState b d now =
        { system_state := some (decodeSystemState b)
          sensors := some (parseSensors (decodeSystemState b))
          counters := some (parseCounters (decodeSystemState b))
          last_update := some now } := by
      rw [parseSystemState, if_neg (by omega)]
    refine ⟨?_, by rw [hp], by rw [hp]⟩
    simp [get_system_state, hb, hc.1.1, hc.1.2, hc.2]

/-- C3 witness: a Success-classified 112-byte response replaces cache and
timestamp and the call reports true. -/
theorem get_system_state_spec_witness :
    get_system_state fullOkOracle 5 emptyDevice 0 =
      (true, parseSystemState sampleStateResponse emptyDevice 0)
    ∧ (parseSystemState sampleStateResponse emptyDevice 0).last_update = some 0
    ∧ (parseSystemState sampleStateResponse emptyDevice 0).system_state =
        some (decodeSystemState sampleStateResponse) :=
  (get_system_state_spec fullOkOracle 5 emptyDevice 0).2.2.2
    sampleStateResponse (by decide) (by decide) (by decide)

/-- Helper: behaviour of the retry loop when the first non-empty response
arrives at attempt `i` (0-based): the loop returns it with attempt count
`i + 1` after one retry-delay sleep per preceding failed attempt. -/
theorem retryGo_success (responses : Oracle) (maxRetries i : Nat) (b : List Nat)
    (hi : i < maxRetries) (hresp : responses i = some b) (hne : b ≠ []) :
    ∀ remaining attempt sleeps, attempt + remaining = maxRetries →
      attempt ≤ i →
      (∀ j, attempt ≤ j → j < i → attempt_failed (responses j)) →
      retryGo responses maxRetries remaining attempt sleeps =
        (some b, i + 1, sleeps + (i - attempt)) := by
  intro remaining
  induction remaining with
  | zero =>
    intro attempt sleeps h1 h2 _
    omega
  | succ rem ih =>
    intro attempt sleeps h1 h2 hfail
    rcases eq_or_lt_of_le h2 with heq | hlt
    · subst heq
      have hbe : b.isEmpty = false := by
        cases b with
        | nil => exact absurd rfl hne
        | cons x xs => rfl
      simp [retryGo, hresp, hbe]
    · have hstep : retryGo responses maxRetries (rem + 1) attempt sleeps =
          retryGo responses maxRetries rem (attempt + 1)
            (if attempt < maxRetries - 1 then sleeps + 1 else sleeps) := by
        rcases hfail attempt le_rfl hlt with h | h <;> simp [retryGo, h]
      have hc : attempt < maxRetries - 1 := by omega
      rw [hstep, if_pos hc,
        ih (attempt + 1) (sleeps + 1) (by omega) hlt
          (fun j hj1 hj2 => hfail j (by omega) hj2)]
      have harith : sleeps + 1 + (i - (attempt + 1)) = sleeps + (i - attempt) := by
        omega
      rw [harith]

/-- Helper: behaviour of the retry loop when every attempt fails: it
returns `(none, maxRetries)` after `maxRetries - 1` retry-delay sleeps
(one after each failed attempt except the final one). -/
theorem retryGo_allfail (responses : Oracle) (maxRetries : Nat)
    (hfail : ∀ j, j < maxRetries → attempt_failed (responses j)) :
    ∀ remaining attempt sleeps, attempt + remaining = maxRetries →
      retryGo responses maxRetries remaining attempt sleeps =
        (none, maxRetries, sleeps + (maxRetries - 1 - attempt)) := by
  intro remaining
  induction remaining with
  | zero =>
    intro attempt sleeps h1
    have : maxRetries - 1 - attempt = 0 := by omega
    simp [retryGo, this]
  | succ rem ih =>
    intro attempt sleeps h1
    have ha : attempt < maxRetries := by omega
    have hstep : retryGo responses maxRetries (rem + 1) attempt sleeps =
        retryGo responses maxRetries rem (attempt + 1)
          (if attempt < maxRetries - 1 then sleeps + 1 else sleeps) := by
      rcases hfail attempt ha with h | h <;> simp [retryGo, h]
    rw [hstep, ih (attempt + 1) _ (by omega)]
    simp only [Prod.mk.injEq, true_and]
    split_ifs <;> omega

/-- C8: `send_command_with_retries` returns on the first attempt yielding a
non-empty response, paired with that attempt's 1-based index, having slept
once after each earlier (failed) attempt; against a transport on which all
`max_retries` attempts fail it returns `(None, max_retries)`, having slept
after every failed attempt except the last.  The third result component of
the model counts the `asyncio.sleep(retry_delay)` calls. -/
theorem send_command_with_retries_spec :
    ∀ (responses : Oracle) (maxRetries : Nat),
      (∀ i b, i < maxRetries →
        (∀ j, j < i → attempt_failed (responses j)) →
        responses i = some b → b ≠ [] →
        send_command_with_retries responses maxRetries = (some b, i + 1, i))
      ∧ ((∀ j, j < maxRetries → attempt_failed (responses j)) →
        send_command_with_retries responses maxRetries =
          (none, maxRetries, maxRetries - 1)) := by
  intro responses maxRetries
  constructor
  · intro i b hi hfail hresp hne
    have h := retryGo_success responses maxRetries i b hi hresp hne
      maxRetries 0 0 (by omega) (Nat.zero_le i) (fun j _ hj2 => hfail j hj2)
    simpa [send_command_with_retries] using h
  · intro hfail
    have h := retryGo_allfail responses maxRetries hfail maxRetries 0 0 (by omega)
    simpa [send_command_with_retries] using h

/-- C8 witness: two transport failures followed by a one-byte response give
`(some [0x02], 3)` with two sleeps; and the always-failing transport gives
`(none, 5)` with four sleeps. -/
theorem send_command_with_retries_spec_witness :
    send_command_with_retries thirdTimeOracle 5 = (some [0x02], 3, 2)
    ∧ send_command_with_retries alwaysFailOracle 5 = (none, 5, 4) :=
  ⟨(send_command_with_retries_spec thirdTimeOracle 5).1 2 [0x02] (by decide)
      (fun j hj => Or.inl (by simp [thirdTimeOracle, hj])) (by decide)
      (by decide),
   (send_command_with_retries_spec alwaysFailOracle 5).2
      (fun j _ => Or.inl rfl)⟩

/-- C6: for every command code and payload of 16-bit-representable length,
`create_command` produces `02 54 51`, the code byte, the payload length as
two big-endian bytes (which recombine to exactly `len(payload)`), the
payload itself, and two final CRC bytes equal to `crc16` of all preceding
bytes in `(hi, lo)` order. -/
theorem create_command_spec :
    ∀ (code : Nat) (payload : List Nat), payload.length < 65536 →
      (create_command code payload).take 4 = [0x02, 0x54, 0x51, code]
      ∧ (create_command code payload).getD 4 0 * 256
          + (create_command code payload).getD 5 0 = payload.length
      ∧ (create_command code payload).getD 4 0 < 256
      ∧ (create_command code payload).getD 5 0 < 256
      ∧ (create_command code payload).length = payload.length + 8
      ∧ ((create_command code payload).drop 6).take payload.length = payload
      ∧ (create_command code payload).drop (6 + payload.length) =
          [(crc16 ((create_command code payload).take (6 + payload.length))).1,
           (crc16 ((create_command code payload).take (6 + payload.length))).2] := by
  intro code payload h
  have hout : create_command code payload =
      0x02 :: 0x54 :: 0x51 :: code :: (payload.length / 256) ::
        (payload.length % 256) ::
        (payload ++
          [(crc16 (0x02 :: 0x54 :: 0x51 :: code :: (payload.length / 256) ::
              (payload.length % 256) :: payload)).1,
           (crc16 (0x02 :: 0x54 :: 0x51 :: code :: (payload.length / 256) ::
              (payload.length % 256) :: payload)).2]) := by
    simp [create_command, lenBytesBE]
  have hsplit : create_command code payload =
      (0x02 :: 0x54 :: 0x51 :: code :: (payload.length / 256) ::
        (payload.length % 256) :: payload) ++
        [(crc16 (0x02 :: 0x54 :: 0x51 :: code :: (payload.length / 256) ::
            (payload.length % 256) :: payload)).1,
         (crc16 (0x02 :: 0x54 :: 0x51 :: code :: (payload.length / 256) ::
            (payload.length % 256) :: payload)).2] := by
    rw [hout]
    simp
  have hlen6 : (0x02 :: 0x54 :: 0x51 :: code :: (payload.length / 256) ::
      (payload.length % 256) :: payload).length = 6 + payload.length := by
    simp
    omega
  have htake : (create_command code payload).take (6 + payload.length) =
      0x02 :: 0x54 :: 0x51 :: code :: (payload.length / 256) ::
        (payload.length % 256) :: payload := by
    rw [hsplit, ← hlen6, List.take_left]
  have hdrop : (create_command code payload).drop (6 + payload.length) =
      [(crc16 (0x02 :: 0x54 :: 0x51 :: code :: (payload.length / 256) ::
          (payload.length % 256) :: payload)).1,
       (crc16 (0x02 :: 0x54 :: 0x51 :: code :: (payload.length / 256) ::
          (payload.length % 256) :: payload)).2] := by
    rw [hsplit, ← hlen6, List.drop_left]
  refine ⟨?_, ?_, ?_, ?_, ?_, ?_, ?_⟩
  · rw [hout]; simp
  · rw [hout]; simp; omega
  · rw [hout]; simp; omega
  · rw [hout]; simp; omega
  · rw [hout]; simp
  · rw [hout]; simp
  · rw [hdrop, htake]

/-- C6 witness at the system-state query frame `create_command 0x52 []`. -/
theorem create_command_spec_witness :
    (create_command 0x52 []).getD 4 0 * 256 + (create_command 0x52 []).getD 5 0
      = ([] : List Nat).length :=
  (create_command_spec 0x52 [] (by decide)).2.1

/-- C9: the system-state parser rejects every input shorter than 112 bytes
leaving the whole device cache (including the timestamp) untouched, and on
inputs of at least 112 bytes its result depends only on the bytes at the
documented fixed offsets: two sufficiently long inputs agreeing on
`stateOffsets` parse identically. -/
theorem parse_reads_only_fixed_offsets :
    (∀ (data : List Nat) (d : DeviceState) (now : ℚ), data.length < 112 →
      parseSystemState data d now = d)
    ∧ (∀ (data1 data2 : List Nat) (d : DeviceState) (now : ℚ),
      112 ≤ data1.length → 112 ≤ data2.length →
      (∀ i ∈ stateOffsets, data1.getD i 0 = data2.getD i 0) →
      parseSystemState data1 d now = parseSystemState data2 d now) := by
  constructor
  · intro data d now hlen
    rw [parseSystemState, if_pos hlen]
  · intro data1 data2 d now h1 h2 hag
    have e : decodeSystemState data1 = decodeSystemState data2 := by
      unfold decodeSystemState
      rw [hag 41 (by decide), hag 46 (by decide), hag 47 (by decide),
        hag 51 (by decide), hag 52 (by decide), hag 53 (by decide),
        hag 54 (by decide), hag 55 (by decide), hag 56 (by decide),
        hag 57 (by decide), hag 58 (by decide), hag 59 (by decide),
        hag 60 (by decide), hag 61 (by decide), hag 62 (by decide),
        hag 66 (by decide), hag 67 (by decide), hag 68 (by decide)]
    rw [parseSystemState, if_neg (by omega), parseSystemState,
      if_neg (by omega), e]

/-- C9 witness: a 112-byte and a 113-byte all-zero response agree on the
fixed offsets and parse identically; a 4-byte response parses to the
unchanged cache. -/
theorem parse_reads_only_fixed_offsets_witness :
    parseSystemState (List.replicate 112 0) emptyDevice 0 =
      parseSystemState (List.replicate 113 0) emptyDevice 0
    ∧ parseSystemState [0x02, 0x54, 0x41, 0x52] emptyDevice 0 = emptyDevice :=
  ⟨parse_reads_only_fixed_offsets.2 (List.replicate 112 0)
      (List.replicate 113 0) emptyDevice 0 (by decide) (by decide) (by decide),
   parse_reads_only_fixed_offsets.1 [0x02, 0x54, 0x41, 0x52] emptyDevice 0
      (by decide)⟩

end Neptun
